import Mathlib

/-!
Shallow embedding of the Qdrant collection-management service
(src/qdrant_manager.py and src/collections_api.py).

The external vector store is modelled as an association list from
collection names to collection data; the qdrant client calls become pure
functions on that state.  Manager methods are translated line by line from
`QdrantCollectionManager`; the HTTP handlers from collections_api.py become
functions returning an HTTP status together with a detail string, using the
same exception-to-status mapping as the FastAPI handlers
(`except ValueError` then `except Exception`).

Python peculiarities that the claims depend on are made explicit:
  - `info.points_count` is Optional in the qdrant client, so it is an
    `Option Nat` here; the expression `info.points_count or 0` becomes
    `Option.getD 0`, while a bare comparison `info.points_count > 0`
    raises TypeError when the value is None.
  - Python resolves a global name such as `Filter` when the referencing
    line executes; qdrant_manager.py imports only Distance, VectorParams
    and PayloadSchemaType from qdrant_client.models, so the references to
    Filter, FieldCondition and MatchValue in delete_document_by_filename
    raise NameError.  The embedding performs that name resolution against
    the explicit table of module-level bindings.
  - Attribute lookup `manager.get_collection_documents_count` in the stats
    handler is resolved against the explicit table of methods defined on
    `QdrantCollectionManager`; a missing method raises AttributeError.
  - Interpolated error messages keep the Spanish wording of the source
    with the quoting characters elided.
-/

namespace GestionQdrant

/-- Distance enumeration from qdrant_client.models (the three members used
by the source). -/
inductive Distance where
  | COSINE
  | EUCLID
  | DOT
deriving DecidableEq, Repr

/-- Python enum member name, as produced by `distance.name` in the source
(list_collections and get_collection_info). -/
def Distance.pyName : Distance → String
  | .COSINE => "COSINE"
  | .EUCLID => "EUCLID"
  | .DOT => "DOT"

/-- VectorParams from qdrant_client.models: size and distance of a
collection's vectors. -/
structure VectorParams where
  size : Nat
  distance : Distance
deriving DecidableEq, Repr

/-- PayloadSchemaType from qdrant_client.models (the two members used in
DEFAULT_PAYLOAD_INDEXES). -/
inductive PayloadSchemaType where
  | KEYWORD
  | INTEGER
deriving DecidableEq, Repr

/-- Payload values stored on a point (strings and integers suffice for the
known schema fields). -/
inductive PValue where
  | str (s : String)
  | int (n : Int)
deriving DecidableEq, Repr

/-- Point payload: a Python dict from field names to values, as an
association list in insertion order. -/
abbrev Payload := List (String × PValue)

/-- Python `payload.get(key)`: the value of the first binding of `key`, or
None when absent. -/
def pget (payload : Payload) (key : String) : Option PValue :=
  (payload.find? (fun kv => kv.1 == key)).map (fun kv => kv.2)

/-- A stored point: id plus payload; the client reports no payload (None)
for a point stored without one, hence the Option. -/
structure Point where
  id : Nat
  payload : Option Payload
deriving DecidableEq, Repr

/-- Collection metadata: a Python dict from string keys to Optional[str]
values (description may be None). -/
abbrev Metadata := List (String × Option String)

/-- Python `metadata.get(key)`: stored value (itself possibly None) when
the key is present, None otherwise. -/
def mget (metadata : Metadata) (key : String) : Option String :=
  match metadata.find? (fun kv => kv.1 == key) with
  | some kv => kv.2
  | none => none

/-- State of one collection inside the external store.  `points` is the
stored point set; `points_count` is the count the store reports in
collection info, kept separate (and Optional, as in the client's
CollectionInfo type) so that a store answering None can be modelled. -/
structure CollectionData where
  vectors : VectorParams
  metadata : Option Metadata
  points : List Point
  points_count : Option Nat
  indexed_vectors_count : Option Nat
  status : String
deriving DecidableEq, Repr

/-- The external store: collections by name, in creation order. -/
abbrev Store := List (String × CollectionData)

/-- Python exceptions distinguished by the API layer's handlers. -/
inductive PyError where
  | valueError (msg : String)
  | typeError (msg : String)
  | nameError (msg : String)
  | attributeError (msg : String)
deriving DecidableEq, Repr

/-- Exception message, as `str(e)` in the handlers. -/
def PyError.message : PyError → String
  | .valueError m => m
  | .typeError m => m
  | .nameError m => m
  | .attributeError m => m

/-- Result dict `{success, collection_name, message}` returned by the CRUD
methods. -/
structure OpResult where
  success : Bool
  collection_name : String
  message : String
deriving DecidableEq, Repr

/-- Stats model (class CollectionStats in qdrant_manager.py). -/
structure CollectionStats where
  name : String
  description : Option String
  vector_size : Nat
  distance : String
  points_count : Nat
  indexed_vectors_count : Nat
  status : String
  created_at : Option String
deriving DecidableEq, Repr

/-- Calls issued to the store by a manager method, recorded as a trace. -/
inductive StoreCall where
  | createCollection (name : String) (vectors : VectorParams) (metadata : Option Metadata)
  | createPayloadIndex (collection : String) (field : String) (schema : PayloadSchemaType)
  | updateCollectionMeta (name : String) (metadata : Metadata)
deriving DecidableEq, Repr

/-- DEFAULT_PAYLOAD_INDEXES (qdrant_manager.py lines 59 to 66), in dict
insertion order. -/
def DEFAULT_PAYLOAD_INDEXES : List (String × PayloadSchemaType) :=
  [("document_hash", .KEYWORD),
   ("filename", .KEYWORD),
   ("format", .KEYWORD),
   ("chunk", .INTEGER),
   ("total_pages", .INTEGER),
   ("date", .KEYWORD)]

-- ==========================================================================
-- Raw qdrant client operations on the store state
-- ==========================================================================

/-- Client get_collections plus the list comprehension of
collection_exists: `name in [c.name for c in ...]`. -/
def collection_exists (st : Store) (name : String) : Bool :=
  (st.map (fun c => c.1)).contains name

/-- Client get_collection: info for the named collection, when present. -/
def get_collection? (st : Store) (name : String) : Option CollectionData :=
  (st.find? (fun c => c.1 == name)).map (fun c => c.2)

/-- Client create_collection: a fresh empty collection with the given
vectors config and metadata. -/
def client_create_collection (st : Store) (name : String)
    (vectors : VectorParams) (metadata : Option Metadata) : Store :=
  st ++ [(name,
    { vectors := vectors
      metadata := metadata
      points := []
      points_count := some 0
      indexed_vectors_count := some 0
      status := "GREEN" })]

/-- Client delete_collection: removes every entry with the given name. -/
def client_delete_collection (st : Store) (name : String) : Store :=
  st.filter (fun c => !(c.1 == name))

/-- Client delete with a points selector: removes the matching points of
the named collection and updates the reported count. -/
def client_delete_points (st : Store) (name : String) (sel : Point → Bool) : Store :=
  st.map (fun c =>
    if c.1 == name then
      (c.1, { c.2 with
              points := c.2.points.filter (fun p => !(sel p))
              points_count := some (c.2.points.filter (fun p => !(sel p))).length })
    else c)

-- ==========================================================================
-- QdrantCollectionManager methods
-- ==========================================================================

/-- Distance map of create_collection (qdrant_manager.py lines 102 to 106). -/
def distance_map : List (String × Distance) :=
  [("Cosine", .COSINE), ("Euclid", .EUCLID), ("Dot", .DOT)]

/-- Python `distance_map.get(distance, Distance.COSINE)` (line 107). -/
def distance_map_get (distance : String) : Distance :=
  ((distance_map.find? (fun kv => kv.1 == distance)).map (fun kv => kv.2)).getD .COSINE

/-- Manager create_collection (qdrant_manager.py lines 91 to 137).  `now`
stands for `datetime.utcnow().isoformat()`.  Returns the result or the
raised exception, the new store state, and the trace of store calls
issued; index creation is attempted for every DEFAULT_PAYLOAD_INDEXES
field, individual index failures being swallowed by the try/except. -/
def create_collection (st : Store) (name : String) (description : Option String)
    (vector_size : Nat) (distance : String) (now : String) :
    Except PyError OpResult × Store × List StoreCall :=
  if collection_exists st name then
    (.error (.valueError s!"La coleccion {name} ya existe"), st, [])
  else
    let distance_metric := distance_map_get distance
    let metadata : Metadata := [("description", description), ("created_at", some now)]
    let st1 := client_create_collection st name
      { size := vector_size, distance := distance_metric } (some metadata)
    let calls : List StoreCall :=
      .createCollection name { size := vector_size, distance := distance_metric } (some metadata) ::
      DEFAULT_PAYLOAD_INDEXES.map (fun fs => .createPayloadIndex name fs.1 fs.2)
    (.ok { success := true
           collection_name := name
           message := s!"Coleccion {name} creada correctamente" }, st1, calls)

/-- Manager list_collections (qdrant_manager.py lines 139 to 160). -/
def list_collections (st : Store) : List CollectionStats :=
  st.map (fun c =>
    let info := c.2
    let metadata := info.metadata.getD []
    { name := c.1
      description := mget metadata "description"
      vector_size := info.vectors.size
      distance := info.vectors.distance.pyName
      points_count := info.points_count.getD 0
      indexed_vectors_count := info.indexed_vectors_count.getD 0
      status := info.status
      created_at := mget metadata "created_at" })

/-- Manager get_collection_info (qdrant_manager.py lines 162 to 178). -/
def get_collection_info (st : Store) (name : String) : Except PyError CollectionStats :=
  if !(collection_exists st name) then
    .error (.valueError s!"La coleccion {name} no existe")
  else
    match get_collection? st name with
    | none => .error (.valueError s!"La coleccion {name} no existe")
    | some info =>
      let metadata := info.metadata.getD []
      .ok { name := name
            description := mget metadata "description"
            vector_size := info.vectors.size
            distance := info.vectors.distance.pyName
            points_count := info.points_count.getD 0
            indexed_vectors_count := info.indexed_vectors_count.getD 0
            status := info.status
            created_at := mget metadata "created_at" }

/-- Manager update_collection (qdrant_manager.py lines 180 to 198): builds
metadata `{description, updated_at}` and issues one client
update_collection call carrying exactly that dict. -/
def update_collection (st : Store) (name : String) (description : Option String)
    (now : String) : Except PyError OpResult × Store × List StoreCall :=
  if !(collection_exists st name) then
    (.error (.valueError s!"La coleccion {name} no existe"), st, [])
  else
    let metadata : Metadata := [("description", description), ("updated_at", some now)]
    let st1 := st.map (fun c => if c.1 == name then (c.1, { c.2 with metadata := some metadata }) else c)
    (.ok { success := true
           collection_name := name
           message := s!"Coleccion {name} actualizada correctamente" },
     st1, [.updateCollectionMeta name metadata])

/-- Message of the TypeError Python raises for `None > 0`. -/
def noneGtIntMsg : String :=
  "gt not supported between instances of NoneType and int"

/-- Manager delete_collection (qdrant_manager.py lines 200 to 216).  The
guard is literally `info.points_count > 0 and not force`: the left operand
is evaluated first, so a None points_count raises TypeError whatever
`force` is; there is no `or 0` fallback here. -/
def delete_collection (st : Store) (name : String) (force : Bool) :
    Except PyError OpResult × Store :=
  if !(collection_exists st name) then
    (.error (.valueError s!"La coleccion {name} no existe"), st)
  else
    match get_collection? st name with
    | none => (.error (.valueError s!"La coleccion {name} no existe"), st)
    | some info =>
      match info.points_count with
      | none => (.error (.typeError noneGtIntMsg), st)
      | some n =>
        if n > 0 && !force then
          (.error (.valueError s!"La coleccion {name} tiene vectores. Use force=true."), st)
        else
          (.ok { success := true
                 collection_name := name
                 message := s!"Coleccion {name} eliminada correctamente" },
           client_delete_collection st name)

/-- Manager clear_collection (qdrant_manager.py lines 218 to 236): reads
the collection info, then delete followed by create with the previously
read vectors config and metadata. -/
def clear_collection (st : Store) (name : String) : Except PyError OpResult × Store :=
  if !(collection_exists st name) then
    (.error (.valueError s!"La coleccion {name} no existe"), st)
  else
    match get_collection? st name with
    | none => (.error (.valueError s!"La coleccion {name} no existe"), st)
    | some info =>
      let st1 := client_delete_collection st name
      let st2 := client_create_collection st1 name info.vectors info.metadata
      (.ok { success := true
             collection_name := name
             message := s!"Coleccion {name} limpiada correctamente" },
       st2)

-- ==========================================================================
-- Module-level name resolution (qdrant_manager.py)
-- ==========================================================================

/-- Names imported from qdrant_client.models (qdrant_manager.py lines 10
to 14): only these three. -/
def qdrant_models_imports : List String :=
  ["Distance", "VectorParams", "PayloadSchemaType"]

/-- Module-level global names bound in qdrant_manager.py: imports (lines 5
to 15), configuration constants, the pydantic models, the index table, the
manager class and the singleton accessor.  Built-in names such as len or
print resolve through Python's builtins and are not relevant here; the
filter-model classes Filter, FieldCondition and MatchValue are neither
module globals nor builtins. -/
def qdrant_manager_globals : List String :=
  ["os", "List", "Dict", "Any", "Optional", "datetime", "QdrantClient"] ++
  qdrant_models_imports ++
  ["BaseModel", "QDRANT_HOST", "QDRANT_PORT", "DEFAULT_VECTOR_SIZE",
   "DEFAULT_DISTANCE", "CollectionCreateRequest", "CollectionUpdateRequest",
   "CollectionStats", "DEFAULT_PAYLOAD_INDEXES", "QdrantCollectionManager",
   "_collection_manager", "get_collection_manager"]

/-- Python resolution of a module-global name inside qdrant_manager.py. -/
def resolves_global (n : String) : Bool :=
  qdrant_manager_globals.contains n

-- ==========================================================================
-- Document management methods
-- ==========================================================================

/-- Server-side match for `FieldCondition(key="filename",
match=MatchValue(value=filename))`: the stored payload value of the
filename field equals the given string. -/
def filename_matches (p : Point) (filename : String) : Bool :=
  pget (p.payload.getD []) "filename" == some (PValue.str filename)

/-- Result dict of delete_document_by_filename. -/
structure DeleteDocResult where
  success : Bool
  collection_name : String
  filename : String
  deleted_points : Nat
  message : String
deriving DecidableEq, Repr

/-- Manager delete_document_by_filename (qdrant_manager.py lines 246 to
300).  After the existence check the source constructs
`Filter(must=[FieldCondition(...)])`; the name Filter is resolved against
the module globals at that moment and is not bound there (only Distance,
VectorParams and PayloadSchemaType are imported from qdrant_client.models),
so the line raises NameError.  The branch after the resolution check
translates the rest of the source (filtered scroll bounded by limit 10000,
ValueError on zero matches, filtered bulk delete) and is unreachable. -/
def delete_document_by_filename (st : Store) (collection_name : String)
    (filename : String) : Except PyError DeleteDocResult × Store :=
  if !(collection_exists st collection_name) then
    (.error (.valueError s!"La coleccion {collection_name} no existe"), st)
  else if !(resolves_global "Filter") then
    (.error (.nameError "name Filter is not defined"), st)
  else
    match get_collection? st collection_name with
    | none => (.error (.valueError s!"La coleccion {collection_name} no existe"), st)
    | some info =>
      let points_to_delete := (info.points.filter (fun p => filename_matches p filename)).take 10000
      let total_points := points_to_delete.length
      if total_points == 0 then
        (.error (.valueError
          s!"No se encontraron puntos con filename={filename} en la coleccion {collection_name}"), st)
      else
        (.ok { success := true
               collection_name := collection_name
               filename := filename
               deleted_points := total_points
               message := s!"Eliminados {total_points} chunks del documento {filename}" },
         client_delete_points st collection_name (fun p => filename_matches p filename))

/-- One client scroll call of the pagination loop in
list_documents_in_collection: a page of at most 100 points starting at the
cursor, and the next cursor (None once the scan is complete). -/
def scroll_page (points : List Point) (offset : Nat) : List Point × Option Nat :=
  let page := (points.drop offset).take 100
  (page, if offset + page.length < points.length then some (offset + page.length) else none)

/-- The while-loop of list_documents_in_collection (qdrant_manager.py
lines 313 to 327): accumulate pages until the store returns no next
cursor. -/
def scroll_all (points : List Point) (offset : Nat) : List Point :=
  if offset + ((points.drop offset).take 100).length < points.length then
    ((points.drop offset).take 100) ++
      scroll_all points (offset + ((points.drop offset).take 100).length)
  else
    (points.drop offset).take 100
termination_by points.length - offset
decreasing_by
  simp only [List.length_take, List.length_drop] at *
  omega

/-- One aggregated document of list_documents_in_collection.  The grouping
key is the raw payload value of `filename` (with the "unknown" fallback),
hence a PValue. -/
structure DocumentEntry where
  filename : PValue
  document_hash : Option PValue
  format : Option PValue
  total_pages : Option PValue
  total_chunks : Option PValue
  date : Option PValue
  chunks_count : Nat
deriving DecidableEq, Repr

/-- The dict entry created on first encounter of a filename
(qdrant_manager.py lines 335 to 344), chunks_count still 0. -/
def empty_doc (filename : PValue) (payload : Payload) : DocumentEntry :=
  { filename := filename
    document_hash := pget payload "document_hash"
    format := pget payload "format"
    total_pages := pget payload "total_pages"
    total_chunks := pget payload "total_chunks"
    date := pget payload "date"
    chunks_count := 0 }

/-- Loop body of the grouping pass (qdrant_manager.py lines 331 to 346):
insert a fresh entry when the filename is new, then increment the
chunks_count of the entry with that filename.  The documents dict is an
insertion-ordered association list. -/
def add_point (documents : List DocumentEntry) (point : Point) : List DocumentEntry :=
  let payload := point.payload.getD []
  let filename := (pget payload "filename").getD (.str "unknown")
  let documents1 :=
    if documents.any (fun d => d.filename == filename) then documents
    else documents ++ [empty_doc filename payload]
  documents1.map (fun d =>
    if d.filename == filename then { d with chunks_count := d.chunks_count + 1 } else d)

/-- Result dict of list_documents_in_collection. -/
structure DocsResult where
  collection_name : String
  total_documents : Nat
  total_points : Nat
  documents : List DocumentEntry
deriving DecidableEq, Repr

/-- Manager list_documents_in_collection (qdrant_manager.py lines 302 to
353): full paginated scan, then grouping by filename. -/
def list_documents_in_collection (st : Store) (collection_name : String) :
    Except PyError DocsResult :=
  if !(collection_exists st collection_name) then
    .error (.valueError s!"La coleccion {collection_name} no existe")
  else
    match get_collection? st collection_name with
    | none => .error (.valueError s!"La coleccion {collection_name} no existe")
    | some info =>
      let all_points := scroll_all info.points 0
      let documents := all_points.foldl add_point []
      .ok { collection_name := collection_name
            total_documents := documents.length
            total_points := all_points.length
            documents := documents }

-- ==========================================================================
-- HTTP layer (collections_api.py)
-- ==========================================================================

/-- Methods defined on class QdrantCollectionManager (qdrant_manager.py):
the CRUD block plus the document-management block.  There is no
get_collection_documents_count method. -/
def qdrant_collection_manager_methods : List String :=
  ["__new__", "__init__",
   "create_collection", "list_collections", "get_collection_info",
   "update_collection", "delete_collection", "clear_collection",
   "collection_exists",
   "delete_document_by_filename", "list_documents_in_collection"]

/-- Python attribute lookup of a method on the manager instance. -/
def manager_has_method (n : String) : Bool :=
  qdrant_collection_manager_methods.contains n

/-- Handler GET /api/collections/\x7bname\x7d/stats (collections_api.py
lines 200 to 224): get_collection_info, then
`manager.get_collection_documents_count(collection_name)`.  The attribute
lookup precedes any call; a missing attribute raises AttributeError, which
the handler maps to 500 (it is not a ValueError).  Returns (status,
detail); the 200 branch would carry the merged dict and is unreachable
because the method does not exist on the class. -/
def api_get_collection_stats (st : Store) (collection_name : String) : Nat × String :=
  match get_collection_info st collection_name with
  | .error (.valueError msg) => (404, msg)
  | .error e => (500, e.message)
  | .ok _info =>
    if manager_has_method "get_collection_documents_count" then
      (200, "")
    else
      (500, "QdrantCollectionManager object has no attribute get_collection_documents_count")

/-- Handler DELETE /api/collections/\x7bname\x7d (collections_api.py lines
155 to 179): ValueError maps to 400, any other exception to 500. -/
def api_delete_collection (st : Store) (collection_name : String) (force : Bool) :
    (Nat × String) × Store :=
  match delete_collection st collection_name force with
  | (.ok _, st1) => ((200, ""), st1)
  | (.error (.valueError msg), st1) => ((400, msg), st1)
  | (.error e, st1) => ((500, e.message), st1)

/-- Handler DELETE /api/collections/\x7bname\x7d/documents/\x7bfilename\x7d
(collections_api.py lines 289 to 331): ValueError maps to 404, any other
exception to 500. -/
def api_delete_document (st : Store) (collection_name : String) (filename : String) :
    (Nat × String) × Store :=
  match delete_document_by_filename st collection_name filename with
  | (.ok _, st1) => ((200, ""), st1)
  | (.error (.valueError msg), st1) => ((404, msg), st1)
  | (.error e, st1) => ((500, e.message), st1)

-- ==========================================================================
-- Sample stores used to instantiate the theorems
-- ==========================================================================

/-- Payload of one chunk of a document, following the known schema. -/
def samplePayload (fn : String) (idx : Nat) : Payload :=
  [("filename", .str fn), ("document_hash", .str ("hash-" ++ fn)),
   ("format", .str "pdf"), ("total_pages", .int 26), ("total_chunks", .int 58),
   ("date", .str "2026-01-20"), ("chunk", .int idx)]

/-- One stored chunk point. -/
def samplePoint (i : Nat) (fn : String) (idx : Nat) : Point :=
  { id := i, payload := some (samplePayload fn idx) }

/-- A collection holding three chunks of a.pdf and two of b.pdf. -/
def sampleCollection : CollectionData :=
  { vectors := { size := 768, distance := .COSINE }
    metadata := some [("description", some "Documentos de educacion"),
                      ("created_at", some "2026-01-20T13:43:34")]
    points := [samplePoint 0 "a.pdf" 0, samplePoint 1 "a.pdf" 1,
               samplePoint 2 "a.pdf" 2, samplePoint 3 "b.pdf" 0,
               samplePoint 4 "b.pdf" 1]
    points_count := some 5
    indexed_vectors_count := some 5
    status := "GREEN" }

/-- A store with the single sample collection. -/
def sampleStore : Store := [("Curso_101", sampleCollection)]

/-- A collection for which the store reports no points_count. -/
def nonePointsCollection : CollectionData :=
  { vectors := { size := 768, distance := .COSINE }
    metadata := some [("description", some "sin conteo"), ("created_at", some "2026-01-21T00:00:00")]
    points := []
    points_count := none
    indexed_vectors_count := none
    status := "GREEN" }

/-- A store whose only collection reports points_count None. -/
def noneStore : Store := [("Curso_999", nonePointsCollection)]

-- ==========================================================================
-- Basic lemmas about the store model
-- ==========================================================================

theorem collection_exists_iff (st : Store) (name : String) :
    collection_exists st name = true ↔ ∃ c ∈ st, c.1 = name := by
  rw [collection_exists, List.contains_iff_exists_mem_beq]
  constructor
  · rintro ⟨k, hk, hbeq⟩
    rcases List.mem_map.mp hk with ⟨c, hc, rfl⟩
    refine ⟨c, hc, ?_⟩
    have : name = c.1 := by simpa using hbeq
    exact this.symm
  · rintro ⟨c, hc, rfl⟩
    exact ⟨c.1, List.mem_map.mpr ⟨c, hc, rfl⟩, by simp⟩

theorem get_collection?_eq_none_of_not_exists (st : Store) (name : String)
    (h : collection_exists st name = false) : get_collection? st name = none := by
  rw [get_collection?]
  have hf : st.find? (fun c => c.1 == name) = none := by
    rw [List.find?_eq_none]
    intro c hc hbeq
    have : collection_exists st name = true :=
      (collection_exists_iff st name).mpr ⟨c, hc, by simpa using hbeq⟩
    rw [h] at this
    exact Bool.false_ne_true this
  rw [hf]; rfl

theorem collection_exists_of_get? (st : Store) (name : String) (info : CollectionData)
    (h : get_collection? st name = some info) : collection_exists st name = true := by
  rcases hb : collection_exists st name with _ | _
  · rw [get_collection?_eq_none_of_not_exists st name hb] at h; cases h
  · rfl

theorem mem_of_get? (st : Store) (name : String) (info : CollectionData)
    (h : get_collection? st name = some info) : (name, info) ∈ st := by
  rw [get_collection?] at h
  rcases hf : st.find? (fun c => c.1 == name) with _ | c
  · rw [hf] at h; cases h
  · rw [hf] at h
    have hmem := List.mem_of_find?_eq_some hf
    have hkey : c.1 = name := by simpa using List.find?_some hf
    have hval : c.2 = info := by simpa using h
    rw [← hkey, ← hval]
    exact hmem

theorem client_delete_not_exists (st : Store) (name : String) :
    collection_exists (client_delete_collection st name) name = false := by
  rw [Bool.eq_false_iff]
  intro h
  rcases (collection_exists_iff _ _).mp h with ⟨c, hc, hkey⟩
  rw [client_delete_collection, List.mem_filter] at hc
  rcases hc with ⟨_, hne⟩
  rw [hkey] at hne
  simp at hne

theorem get?_create_after_delete (st : Store) (name : String)
    (v : VectorParams) (m : Option Metadata) :
    get_collection? (client_create_collection (client_delete_collection st name) name v m) name =
      some { vectors := v, metadata := m, points := [], points_count := some 0,
             indexed_vectors_count := some 0, status := "GREEN" } := by
  rw [client_create_collection, get_collection?, List.find?_append]
  have hnone : (client_delete_collection st name).find? (fun c => c.1 == name) = none := by
    have := get_collection?_eq_none_of_not_exists (client_delete_collection st name) name
      (client_delete_not_exists st name)
    rw [get_collection?] at this
    rcases hf : (client_delete_collection st name).find? (fun c => c.1 == name) with _ | c
    · exact hf
    · rw [hf] at this; cases this
  rw [hnone]
  simp

theorem take_append_drop_length {α : Type} (l : List α) (n : Nat) :
    l.take n ++ l.drop ((l.take n).length) = l := by
  rw [List.length_take]
  rcases Nat.le_total n l.length with h | h
  · rw [Nat.min_eq_left h, List.take_append_drop]
  · rw [Nat.min_eq_right h, List.drop_length, List.take_of_length_le h, List.append_nil]

theorem scroll_all_eq_drop (points : List Point) (offset : Nat) :
    scroll_all points offset = points.drop offset := by
  rw [scroll_all]
  split
  · rw [scroll_all_eq_drop points (offset + ((points.drop offset).take 100).length)]
    rw [← List.drop_drop]
    exact take_append_drop_length (points.drop offset) 100
  · next h =>
    apply List.take_of_length_le
    simp only [List.length_take, List.length_drop] at h ⊢
    omega
termination_by points.length - offset
decreasing_by
  simp only [List.length_take, List.length_drop] at *
  omega

theorem scroll_all_zero (points : List Point) : scroll_all points 0 = points := by
  rw [scroll_all_eq_drop, List.drop_zero]

-- ==========================================================================
-- Claim C7
-- ==========================================================================

/-- Claim C7: for every name for which a collection already exists,
create_collection fails with the duplicate-name ValueError regardless of
the other parameters, leaves the store unchanged, and issues no store
call (no create-collection or index call). -/
theorem C7_create_duplicate (st : Store) (name : String) (description : Option String)
    (vector_size : Nat) (distance : String) (now : String)
    (h : collection_exists st name = true) :
    create_collection st name description vector_size distance now =
      (.error (.valueError s!"La coleccion {name} ya existe"), st, ([] : List StoreCall)) := by
  rw [create_collection, if_pos h]

theorem C7_create_duplicate_witness :
    collection_exists sampleStore "Curso_101" = true ∧
    create_collection sampleStore "Curso_101" none 512 "Euclid" "2026-02-02T00:00:00" =
      (.error (.valueError "La coleccion Curso_101 ya existe"), sampleStore,
       ([] : List StoreCall)) :=
  ⟨by decide,
   C7_create_duplicate sampleStore "Curso_101" none 512 "Euclid" "2026-02-02T00:00:00"
     (by decide)⟩

-- ==========================================================================
-- Claim C8
-- ==========================================================================

/-- Claim C8: in create_collection the distance string maps Cosine to
COSINE, Euclid to EUCLID, Dot to DOT, and every string outside this set
defaults to COSINE. -/
theorem C8_distance_mapping :
    distance_map_get "Cosine" = Distance.COSINE ∧
    distance_map_get "Euclid" = Distance.EUCLID ∧
    distance_map_get "Dot" = Distance.DOT ∧
    ∀ s : String, s ∉ (["Cosine", "Euclid", "Dot"] : List String) →
      distance_map_get s = Distance.COSINE := by
  refine ⟨rfl, rfl, rfl, ?_⟩
  intro s hs
  simp only [List.mem_cons, List.not_mem_nil, or_false, not_or] at hs
  obtain ⟨h1, h2, h3⟩ := hs
  rw [distance_map_get, distance_map]
  rw [List.find?_cons_of_neg _ (by simpa using Ne.symm h1)]
  rw [List.find?_cons_of_neg _ (by simpa using Ne.symm h2)]
  rw [List.find?_cons_of_neg _ (by simpa using Ne.symm h3)]
  rfl

theorem C8_distance_mapping_witness :
    ("Manhattan" : String) ∉ (["Cosine", "Euclid", "Dot"] : List String) ∧
    distance_map_get "Manhattan" = Distance.COSINE :=
  ⟨by decide, C8_distance_mapping.2.2.2 "Manhattan" (by decide)⟩

-- ==========================================================================
-- Claim C3
-- ==========================================================================

/-- True when some call of the trace creates a payload index on the given
field. -/
def calls_index_field (calls : List StoreCall) (field : String) : Bool :=
  calls.any (fun c => match c with
    | .createPayloadIndex _ f _ => f == field
    | _ => false)

/-- Claim C3 counterexample: at collection creation on an empty store, no
payload-index call is attempted for the field total_chunks, refuting the
claim that every field of the known schema, total_chunks included, gets an
index at creation time. -/
theorem C3_total_chunks_counterexample :
    calls_index_field
      (create_collection [] "Curso_101" none 768 "Cosine" "2026-02-02T00:00:00").2.2
      "total_chunks" = false := by
  decide

/-- Claim C3 (amended): create_collection attempts to create a payload
index for each field of DEFAULT_PAYLOAD_INDEXES, namely document_hash,
filename, format, chunk, total_pages and date; the field total_chunks is
not among them. -/
theorem C3_payload_indexes (st : Store) (name : String) (description : Option String)
    (vector_size : Nat) (distance : String) (now : String)
    (h : collection_exists st name = false) :
    (∀ fs ∈ DEFAULT_PAYLOAD_INDEXES,
        StoreCall.createPayloadIndex name fs.1 fs.2 ∈
          (create_collection st name description vector_size distance now).2.2) ∧
    DEFAULT_PAYLOAD_INDEXES.map Prod.fst =
      ["document_hash", "filename", "format", "chunk", "total_pages", "date"] ∧
    calls_index_field (create_collection st name description vector_size distance now).2.2
      "total_chunks" = false := by
  have hif : (create_collection st name description vector_size distance now).2.2 =
      StoreCall.createCollection name
        { size := vector_size, distance := distance_map_get distance }
        (some [("description", description), ("created_at", some now)]) ::
      DEFAULT_PAYLOAD_INDEXES.map (fun fs => .createPayloadIndex name fs.1 fs.2) := by
    rw [create_collection, if_neg (by simp [h])]
  refine ⟨?_, rfl, ?_⟩
  · intro fs hfs
    rw [hif]
    exact List.mem_cons_of_mem _ (List.mem_map.mpr ⟨fs, hfs, rfl⟩)
  · rw [hif]
    rfl

theorem C3_payload_indexes_witness :
    collection_exists [] "Curso_101" = false ∧
    (∀ fs ∈ DEFAULT_PAYLOAD_INDEXES,
        StoreCall.createPayloadIndex "Curso_101" fs.1 fs.2 ∈
          (create_collection [] "Curso_101" none 768 "Cosine" "t0").2.2) ∧
    DEFAULT_PAYLOAD_INDEXES.map Prod.fst =
      ["document_hash", "filename", "format", "chunk", "total_pages", "date"] ∧
    calls_index_field (create_collection [] "Curso_101" none 768 "Cosine" "t0").2.2
      "total_chunks" = false :=
  ⟨by decide, C3_payload_indexes [] "Curso_101" none 768 "Cosine" "t0" (by decide)⟩

-- ==========================================================================
-- Claim C5
-- ==========================================================================

/-- Claim C5: clear_collection fails with NotFound when the collection is
missing; otherwise it deletes then recreates the collection using the
previously read vectors configuration and metadata, so vector_size,
distance and the collection metadata are preserved across the operation
while the point count is reset to 0. -/
theorem C5_clear_preserves (st : Store) (name : String) (info : CollectionData)
    (hget : get_collection? st name = some info) :
    (clear_collection st name).1 =
      .ok { success := true, collection_name := name,
            message := s!"Coleccion {name} limpiada correctamente" } ∧
    get_collection? (clear_collection st name).2 name =
      some { vectors := info.vectors, metadata := info.metadata, points := [],
             points_count := some 0, indexed_vectors_count := some 0, status := "GREEN" } ∧
    (∃ stats, get_collection_info (clear_collection st name).2 name = .ok stats ∧
      stats.vector_size = info.vectors.size ∧
      stats.distance = info.vectors.distance.pyName ∧
      stats.points_count = 0) ∧
    ∀ m, collection_exists st m = false →
      clear_collection st m = (.error (.valueError s!"La coleccion {m} no existe"), st) := by
  have hex : collection_exists st name = true := collection_exists_of_get? st name info hget
  have heq : clear_collection st name =
      (.ok { success := true, collection_name := name,
             message := s!"Coleccion {name} limpiada correctamente" },
       client_create_collection (client_delete_collection st name) name
         info.vectors info.metadata) := by
    rw [clear_collection, if_neg (by simp [hex]), hget]
  have h2 : get_collection? (clear_collection st name).2 name =
      some { vectors := info.vectors, metadata := info.metadata, points := [],
             points_count := some 0, indexed_vectors_count := some 0, status := "GREEN" } := by
    rw [heq]
    exact get?_create_after_delete st name info.vectors info.metadata
  have hex2 : collection_exists (clear_collection st name).2 name = true :=
    collection_exists_of_get? _ _ _ h2
  refine ⟨by rw [heq], h2, ?_, ?_⟩
  · refine ⟨{ name := name
              description := mget (info.metadata.getD []) "description"
              vector_size := info.vectors.size
              distance := info.vectors.distance.pyName
              points_count := 0
              indexed_vectors_count := 0
              status := "GREEN"
              created_at := mget (info.metadata.getD []) "created_at" }, ?_, rfl, rfl, rfl⟩
    rw [get_collection_info, if_neg (by simp [hex2]), h2]
    rfl
  · intro m hm
    rw [clear_collection, if_pos (by simp [hm])]

theorem C5_clear_preserves_witness :
    get_collection? sampleStore "Curso_101" = some sampleCollection ∧
    get_collection? (clear_collection sampleStore "Curso_101").2 "Curso_101" =
      some { vectors := sampleCollection.vectors,
             metadata := sampleCollection.metadata, points := [],
             points_count := some 0, indexed_vectors_count := some 0,
             status := "GREEN" } :=
  ⟨by decide,
   (C5_clear_preserves sampleStore "Curso_101" sampleCollection (by decide)).2.1⟩

-- ==========================================================================
-- Claim C6
-- ==========================================================================

/-- Claim C6: delete_collection fails with NotFound when the collection is
missing; for every collection whose reported points_count is a positive n,
the call with force false fails with the NotEmpty ValueError and leaves
the store unchanged, while the call with force true succeeds and removes
the collection. -/
theorem C6_delete_force (st : Store) (name : String) (info : CollectionData) (n : Nat)
    (hget : get_collection? st name = some info)
    (hcount : info.points_count = some n) (hpos : 0 < n) :
    delete_collection st name false =
      (.error (.valueError s!"La coleccion {name} tiene vectores. Use force=true."), st) ∧
    (delete_collection st name true).1 =
      .ok { success := true, collection_name := name,
            message := s!"Coleccion {name} eliminada correctamente" } ∧
    (delete_collection st name true).2 = client_delete_collection st name ∧
    collection_exists (delete_collection st name true).2 name = false ∧
    ∀ m, collection_exists st m = false →
      delete_collection st m false =
        (.error (.valueError s!"La coleccion {m} no existe"), st) := by
  have hex : collection_exists st name = true := collection_exists_of_get? st name info hget
  have hfalse : delete_collection st name false =
      (.error (.valueError s!"La coleccion {name} tiene vectores. Use force=true."), st) := by
    rw [delete_collection, if_neg (by simp [hex]), hget]
    simp [hcount, hpos]
  have htrue : delete_collection st name true =
      (.ok { success := true, collection_name := name,
             message := s!"Coleccion {name} eliminada correctamente" },
       client_delete_collection st name) := by
    rw [delete_collection, if_neg (by simp [hex]), hget]
    simp [hcount]
  refine ⟨hfalse, by rw [htrue], by rw [htrue], ?_, ?_⟩
  · rw [htrue]
    exact client_delete_not_exists st name
  · intro m hm
    rw [delete_collection, if_pos (by simp [hm])]

theorem C6_delete_force_witness :
    get_collection? sampleStore "Curso_101" = some sampleCollection ∧
    sampleCollection.points_count = some 5 ∧ 0 < 5 ∧
    delete_collection sampleStore "Curso_101" false =
      (.error (.valueError "La coleccion Curso_101 tiene vectores. Use force=true."),
       sampleStore) ∧
    collection_exists (delete_collection sampleStore "Curso_101" true).2 "Curso_101" = false :=
  ⟨by decide, by decide, by decide,
   (C6_delete_force sampleStore "Curso_101" sampleCollection 5
     (by decide) (by decide) (by decide)).1,
   (C6_delete_force sampleStore "Curso_101" sampleCollection 5
     (by decide) (by decide) (by decide)).2.2.2.1⟩

-- ==========================================================================
-- Claim C9
-- ==========================================================================

/-- Claim C9: update_collection fails with NotFound when the collection is
missing; otherwise the single metadata write it issues to the store
carries exactly the keys description and updated_at with the supplied
values, and in particular created_at is not part of the written
metadata. -/
theorem C9_update_metadata (st : Store) (name : String) (d : Option String) (now : String)
    (h : collection_exists st name = true) :
    (update_collection st name d now).2.2 =
      [StoreCall.updateCollectionMeta name [("description", d), ("updated_at", some now)]] ∧
    (∀ md, StoreCall.updateCollectionMeta name md ∈ (update_collection st name d now).2.2 →
      md.map Prod.fst = ["description", "updated_at"] ∧ mget md "created_at" = none) ∧
    (update_collection st name d now).1 =
      .ok { success := true, collection_name := name,
            message := s!"Coleccion {name} actualizada correctamente" } ∧
    ∀ m, collection_exists st m = false →
      update_collection st m d now =
        (.error (.valueError s!"La coleccion {m} no existe"), st, []) := by
  have heq : (update_collection st name d now).2.2 =
      [StoreCall.updateCollectionMeta name [("description", d), ("updated_at", some now)]] := by
    rw [update_collection, if_neg (by simp [h])]
  refine ⟨heq, ?_, ?_, ?_⟩
  · intro md hmd
    rw [heq, List.mem_singleton] at hmd
    have : md = [("description", d), ("updated_at", some now)] := by
      cases hmd
      rfl
    rw [this]
    exact ⟨rfl, rfl⟩
  · rw [update_collection, if_neg (by simp [h])]
  · intro m hm
    rw [update_collection, if_pos (by simp [hm])]

theorem C9_update_metadata_witness :
    collection_exists sampleStore "Curso_101" = true ∧
    (update_collection sampleStore "Curso_101" (some "nueva") "2026-02-02T00:00:00").2.2 =
      [StoreCall.updateCollectionMeta "Curso_101"
        [("description", some "nueva"), ("updated_at", some "2026-02-02T00:00:00")]] :=
  ⟨by decide,
   (C9_update_metadata sampleStore "Curso_101" (some "nueva") "2026-02-02T00:00:00"
     (by decide)).1⟩

-- ==========================================================================
-- Claim C10
-- ==========================================================================

/-- Claim C10: delete_collection evaluates the non-empty check as a bare
comparison of the reported points_count with 0, without the getD 0
fallback that get_collection_info and list_collections apply; when the
store reports no points_count, the call does not treat the collection as
empty and deletable but raises TypeError whatever force is, surfaced by
the HTTP handler as a 500, while get_collection_info and list_collections
report that same collection with points_count 0. -/
theorem C10_points_count_none (st : Store) (name : String) (info : CollectionData)
    (hget : get_collection? st name = some info)
    (hcount : info.points_count = none) :
    (∀ force, delete_collection st name force = (.error (.typeError noneGtIntMsg), st)) ∧
    (api_delete_collection st name false).1.1 = 500 ∧
    (∃ stats, get_collection_info st name = .ok stats ∧ stats.points_count = 0) ∧
    (∃ cs ∈ list_collections st, cs.name = name ∧ cs.points_count = 0) := by
  have hex : collection_exists st name = true := collection_exists_of_get? st name info hget
  have hdel : ∀ force, delete_collection st name force =
      (.error (.typeError noneGtIntMsg), st) := by
    intro force
    rw [delete_collection, if_neg (by simp [hex]), hget]
    simp [hcount]
  refine ⟨hdel, ?_, ?_, ?_⟩
  · rw [api_delete_collection, hdel false]
  · refine ⟨{ name := name
              description := mget (info.metadata.getD []) "description"
              vector_size := info.vectors.size
              distance := info.vectors.distance.pyName
              points_count := info.points_count.getD 0
              indexed_vectors_count := info.indexed_vectors_count.getD 0
              status := info.status
              created_at := mget (info.metadata.getD []) "created_at" }, ?_, ?_⟩
    · rw [get_collection_info, if_neg (by simp [hex]), hget]
    · simp [hcount]
  · refine ⟨_, List.mem_map.mpr ⟨(name, info), mem_of_get? st name info hget, rfl⟩, rfl, ?_⟩
    simp [hcount]

theorem C10_points_count_none_witness :
    get_collection? noneStore "Curso_999" = some nonePointsCollection ∧
    nonePointsCollection.points_count = none ∧
    delete_collection noneStore "Curso_999" true =
      (.error (.typeError noneGtIntMsg), noneStore) ∧
    (api_delete_collection noneStore "Curso_999" false).1.1 = 500 :=
  ⟨by decide, by decide,
   (C10_points_count_none noneStore "Curso_999" nonePointsCollection
     (by decide) (by decide)).1 true,
   (C10_points_count_none noneStore "Curso_999" nonePointsCollection
     (by decide) (by decide)).2.1⟩

theorem get?_isSome_of_exists (st : Store) (name : String)
    (h : collection_exists st name = true) :
    ∃ info, get_collection? st name = some info := by
  rcases hg : get_collection? st name with _ | info
  · exfalso
    rcases (collection_exists_iff st name).mp h with ⟨c, hc, hkey⟩
    rw [get_collection?] at hg
    rcases hf : st.find? (fun c => c.1 == name) with _ | c2
    · rw [List.find?_eq_none] at hf
      exact hf c hc (by simp [hkey])
    · rw [hf] at hg
      cases hg
  · exact ⟨info, rfl⟩

-- ==========================================================================
-- Claim C1
-- ==========================================================================

/-- Claim C1 evaluation: for every store in which the collection exists,
delete_document_by_filename raises NameError on the name Filter, whatever
the filename and however many points match, because the filter classes
Filter, FieldCondition and MatchValue are never imported by
qdrant_manager.py; the document handler surfaces the NameError as 500.
The behaviour the claim states, a document-not-found failure on zero
matches and a filtered bulk delete returning the pre-delete count
otherwise, is never reached. -/
theorem C1_delete_document_name_error (st : Store) (collection_name : String)
    (filename : String) (h : collection_exists st collection_name = true) :
    delete_document_by_filename st collection_name filename =
      (.error (.nameError "name Filter is not defined"), st) ∧
    (api_delete_document st collection_name filename).1.1 = 500 ∧
    resolves_global "Filter" = false ∧
    resolves_global "FieldCondition" = false ∧
    resolves_global "MatchValue" = false := by
  have h1 : delete_document_by_filename st collection_name filename =
      (.error (.nameError "name Filter is not defined"), st) := by
    rw [delete_document_by_filename, if_neg (by simp [h]), if_pos (by decide)]
  refine ⟨h1, ?_, by decide, by decide, by decide⟩
  rw [api_delete_document, h1]

theorem C1_delete_document_name_error_witness :
    collection_exists sampleStore "Curso_101" = true ∧
    (sampleCollection.points.filter (fun p => filename_matches p "a.pdf")).length = 3 ∧
    delete_document_by_filename sampleStore "Curso_101" "a.pdf" =
      (.error (.nameError "name Filter is not defined"), sampleStore) :=
  ⟨by decide, by decide,
   (C1_delete_document_name_error sampleStore "Curso_101" "a.pdf" (by decide)).1⟩

-- ==========================================================================
-- Claim C2
-- ==========================================================================

/-- Claim C2 evaluation: the stats endpoint returns 404 when the
collection is missing, but for every existing collection it returns 500
rather than the claimed 200 merged object: the handler calls
manager.get_collection_documents_count, which is not a method defined on
QdrantCollectionManager, so the attribute lookup raises AttributeError
and the generic exception handler maps it to 500. -/
theorem C2_stats_always_500 (st : Store) (name : String)
    (h : collection_exists st name = true) :
    manager_has_method "get_collection_documents_count" = false ∧
    (api_get_collection_stats st name).1 = 500 ∧
    ∀ m, collection_exists st m = false → (api_get_collection_stats st m).1 = 404 := by
  refine ⟨by decide, ?_, ?_⟩
  · obtain ⟨info, hget⟩ := get?_isSome_of_exists st name h
    have hok : get_collection_info st name = .ok
        { name := name
          description := mget (info.metadata.getD []) "description"
          vector_size := info.vectors.size
          distance := info.vectors.distance.pyName
          points_count := info.points_count.getD 0
          indexed_vectors_count := info.indexed_vectors_count.getD 0
          status := info.status
          created_at := mget (info.metadata.getD []) "created_at" } := by
      rw [get_collection_info, if_neg (by simp [h]), hget]
    rw [api_get_collection_stats, hok]
    rfl
  · intro m hm
    have hnf : get_collection_info st m =
        .error (.valueError s!"La coleccion {m} no existe") := by
      rw [get_collection_info, if_pos (by simp [hm])]
    rw [api_get_collection_stats, hnf]

theorem C2_stats_always_500_witness :
    collection_exists sampleStore "Curso_101" = true ∧
    (api_get_collection_stats sampleStore "Curso_101").1 = 500 :=
  ⟨by decide, (C2_stats_always_500 sampleStore "Curso_101" (by decide)).2.1⟩

-- ==========================================================================
-- Claim C4
-- ==========================================================================

/-- Effective grouping key of a point in list_documents_in_collection: the
filename payload value, falling back to the "unknown" sentinel when the
point has no filename payload. -/
def eff_filename (p : Point) : PValue :=
  (pget (p.payload.getD []) "filename").getD (.str "unknown")

/-- The document-level attributes of an aggregated entry all come from the
payload of the given point. -/
def attrs_from (d : DocumentEntry) (p : Point) : Prop :=
  d.document_hash = pget (p.payload.getD []) "document_hash" ∧
  d.format = pget (p.payload.getD []) "format" ∧
  d.total_pages = pget (p.payload.getD []) "total_pages" ∧
  d.total_chunks = pget (p.payload.getD []) "total_chunks" ∧
  d.date = pget (p.payload.getD []) "date"

/-- The chunks_count increment applied by add_point to the entry whose
filename matches. -/
def bump_doc (f : PValue) (d : DocumentEntry) : DocumentEntry :=
  if d.filename == f then { d with chunks_count := d.chunks_count + 1 } else d

theorem add_point_eq (docs : List DocumentEntry) (p : Point) :
    add_point docs p =
      (if docs.any (fun d => d.filename == eff_filename p) then docs
       else docs ++ [empty_doc (eff_filename p) (p.payload.getD [])]).map
        (bump_doc (eff_filename p)) := rfl

theorem bump_doc_filename (f : PValue) (d : DocumentEntry) :
    (bump_doc f d).filename = d.filename := by
  rw [bump_doc]
  split <;> rfl

theorem bump_doc_attrs (f : PValue) (d : DocumentEntry) (p : Point) :
    attrs_from (bump_doc f d) p ↔ attrs_from d p := by
  rw [bump_doc]
  split
  · exact Iff.rfl
  · exact Iff.rfl

theorem bump_doc_of_ne (f : PValue) (d : DocumentEntry)
    (h : (d.filename == f) = false) : bump_doc f d = d := by
  rw [bump_doc, h]
  rfl

theorem bump_doc_of_eq (f : PValue) (d : DocumentEntry)
    (h : (d.filename == f) = true) :
    bump_doc f d = { d with chunks_count := d.chunks_count + 1 } := by
  rw [bump_doc, h]
  rfl

/-- Invariant of the grouping pass: after processing a prefix of points,
the accumulated entries have pairwise distinct filenames, cover exactly
the effective filenames of the processed points, count the processed
points carrying their filename, and draw their attributes from the first
processed point with their filename. -/
def GroupInv (docs : List DocumentEntry) (processed : List Point) : Prop :=
  (docs.map (fun d => d.filename)).Nodup ∧
  (∀ f, f ∈ docs.map (fun d => d.filename) ↔ f ∈ processed.map eff_filename) ∧
  (∀ d ∈ docs, d.chunks_count = processed.countP (fun q => eff_filename q == d.filename)) ∧
  (∀ d ∈ docs, ∃ p, processed.find? (fun q => eff_filename q == d.filename) = some p ∧
    attrs_from d p)

theorem groupInv_nil : GroupInv [] [] := by
  refine ⟨by simp, by simp, by simp, by simp⟩

theorem groupInv_step (docs : List DocumentEntry) (processed : List Point) (p : Point)
    (h : GroupInv docs processed) : GroupInv (add_point docs p) (processed ++ [p]) := by
  obtain ⟨hnd, hmem, hcnt, hattr⟩ := h
  rw [add_point_eq]
  rcases hany : docs.any (fun d => d.filename == eff_filename p) with _ | _
  · -- first point with this filename: a fresh entry is appended
    rw [if_neg (by simp)]
    have hnotin : eff_filename p ∉ docs.map (fun d => d.filename) := by
      intro hin
      rcases List.mem_map.mp hin with ⟨d, hd, hdf⟩
      rw [List.any_eq_false] at hany
      exact hany d hd (by simp [hdf])
    have hmap_old : docs.map (bump_doc (eff_filename p)) = docs := by
      have : ∀ d ∈ docs, bump_doc (eff_filename p) d = d := by
        intro d hd
        apply bump_doc_of_ne
        rw [List.any_eq_false] at hany
        simpa using hany d hd
      calc docs.map (bump_doc (eff_filename p)) = docs.map id := List.map_congr_left this
        _ = docs := List.map_id docs
    have hnew : (docs ++ [empty_doc (eff_filename p) (p.payload.getD [])]).map
        (bump_doc (eff_filename p)) =
        docs ++ [{ empty_doc (eff_filename p) (p.payload.getD []) with chunks_count := 1 }] := by
      rw [List.map_append, hmap_old]
      congr 1
      rw [List.map_singleton]
      congr 1
      apply bump_doc_of_eq
      simp [empty_doc]
    rw [hnew]
    have hfn : (docs ++ [{ empty_doc (eff_filename p) (p.payload.getD []) with
        chunks_count := 1 }]).map (fun d : DocumentEntry => d.filename) =
        docs.map (fun d => d.filename) ++ [eff_filename p] := by
      rw [List.map_append]
      rfl
    have hcount0 : processed.countP (fun q => eff_filename q == eff_filename p) = 0 := by
      rw [List.countP_eq_zero]
      intro q hq hbq
      have : eff_filename q = eff_filename p := by simpa using hbq
      have : eff_filename p ∈ processed.map eff_filename :=
        List.mem_map.mpr ⟨q, hq, this⟩
      exact hnotin ((hmem (eff_filename p)).mpr this)
    have hfind0 : processed.find? (fun q => eff_filename q == eff_filename p) = none := by
      rw [List.find?_eq_none]
      intro q hq hbq
      have : eff_filename q = eff_filename p := by simpa using hbq
      have : eff_filename p ∈ processed.map eff_filename :=
        List.mem_map.mpr ⟨q, hq, this⟩
      exact hnotin ((hmem (eff_filename p)).mpr this)
    refine ⟨?_, ?_, ?_, ?_⟩
    · rw [hfn, List.nodup_append]
      refine ⟨hnd, List.nodup_singleton _, ?_⟩
      intro x hx hx1
      rw [List.mem_singleton] at hx1
      rw [hx1] at hx
      exact hnotin hx
    · intro f
      rw [hfn, List.map_append, List.mem_append, List.mem_append]
      constructor
      · rintro (hf | hf)
        · exact Or.inl ((hmem f).mp hf)
        · exact Or.inr (by simpa using hf)
      · rintro (hf | hf)
        · exact Or.inl ((hmem f).mpr hf)
        · exact Or.inr (by simpa using hf)
    · intro d hd
      rw [List.mem_append] at hd
      rcases hd with hd | hd
      · have hne : (eff_filename p == d.filename) = false := by
          rw [beq_eq_false_iff_ne]
          intro hcontra
          exact hnotin (hcontra ▸ List.mem_map.mpr ⟨d, hd, rfl⟩)
        rw [List.countP_append, hcnt d hd]
        simp [hne]
      · rw [List.mem_singleton] at hd
        rw [hd]
        rw [List.countP_append]
        have : ({ empty_doc (eff_filename p) (p.payload.getD []) with
            chunks_count := 1 } : DocumentEntry).filename = eff_filename p := rfl
        rw [this, hcount0]
        simp [empty_doc]
    · intro d hd
      rw [List.mem_append] at hd
      rcases hd with hd | hd
      · obtain ⟨q, hq, hqa⟩ := hattr d hd
        refine ⟨q, ?_, hqa⟩
        rw [List.find?_append, hq, Option.or_some]
      · rw [List.mem_singleton] at hd
        rw [hd]
        refine ⟨p, ?_, ?_⟩
        · have : ({ empty_doc (eff_filename p) (p.payload.getD []) with
              chunks_count := 1 } : DocumentEntry).filename = eff_filename p := rfl
          rw [this, List.find?_append, hfind0, Option.none_or]
          simp
        · exact ⟨rfl, rfl, rfl, rfl, rfl⟩
  · -- the filename is already present: only the counter moves
    rw [if_pos rfl]
    have hfn : (docs.map (bump_doc (eff_filename p))).map (fun d => d.filename) =
        docs.map (fun d => d.filename) := by
      rw [List.map_map]
      apply List.map_congr_left
      intro d _
      exact bump_doc_filename (eff_filename p) d
    have hin : eff_filename p ∈ docs.map (fun d => d.filename) := by
      rw [List.any_eq_true] at hany
      obtain ⟨d, hd, hdf⟩ := hany
      exact List.mem_map.mpr ⟨d, hd, by simpa using hdf⟩
    refine ⟨?_, ?_, ?_, ?_⟩
    · rw [hfn]
      exact hnd
    · intro f
      rw [hfn, List.map_append, List.mem_append]
      constructor
      · intro hf
        exact Or.inl ((hmem f).mp hf)
      · rintro (hf | hf)
        · exact (hmem f).mpr hf
        · have : f = eff_filename p := by simpa using hf
          rw [this]
          exact hin
    · intro d' hd'
      rcases List.mem_map.mp hd' with ⟨d, hd, rfl⟩
      rw [List.countP_append]
      rcases hdf : (d.filename == eff_filename p) with _ | _
      · rw [bump_doc_of_ne _ _ hdf, hcnt d hd]
        have : (eff_filename p == d.filename) = false := by
          rw [beq_eq_false_iff_ne]
          intro hcontra
          rw [beq_eq_false_iff_ne] at hdf
          exact hdf hcontra.symm
        simp [this]
      · rw [bump_doc_of_eq _ _ hdf]
        have hdeq : d.filename = eff_filename p := by simpa using hdf
        have : ({ d with chunks_count := d.chunks_count + 1 } : DocumentEntry).filename
            = d.filename := rfl
        rw [this, hcnt d hd, hdeq]
        simp
    · intro d' hd'
      rcases List.mem_map.mp hd' with ⟨d, hd, rfl⟩
      obtain ⟨q, hq, hqa⟩ := hattr d hd
      refine ⟨q, ?_, ?_⟩
      · rw [bump_doc_filename, List.find?_append, hq, Option.or_some]
      · rw [bump_doc_attrs]
        exact hqa

theorem groupInv_foldl (pts : List Point) (docs : List DocumentEntry)
    (processed : List Point) (h : GroupInv docs processed) :
    GroupInv (pts.foldl add_point docs) (processed ++ pts) := by
  induction pts generalizing docs processed with
  | nil => simpa using h
  | cons q rest ih =>
    have h1 := groupInv_step docs processed q h
    have h2 := ih (add_point docs q) (processed ++ [q]) h1
    simpa [List.append_assoc] using h2

/-- Claim C4: list_documents_in_collection scans all points and returns
one document per distinct filename payload value (points without a
filename grouped under the "unknown" sentinel); each document's
chunks_count is the number of scanned points carrying that filename, its
document-level attributes (document_hash, format, total_pages,
total_chunks, date) come from the first point encountered with that
filename, total_points is the number of points scanned and
total_documents is the number of distinct filenames. -/
theorem C4_list_documents (st : Store) (name : String) (info : CollectionData)
    (hget : get_collection? st name = some info) :
    ∃ R, list_documents_in_collection st name = .ok R ∧
      R.total_points = info.points.length ∧
      R.total_documents = R.documents.length ∧
      (R.documents.map (fun d => d.filename)).Nodup ∧
      (∀ f, f ∈ R.documents.map (fun d => d.filename) ↔
        f ∈ info.points.map eff_filename) ∧
      R.total_documents = (info.points.map eff_filename).dedup.length ∧
      (∀ d ∈ R.documents, d.chunks_count =
        info.points.countP (fun q => eff_filename q == d.filename)) ∧
      (∀ d ∈ R.documents, ∃ p,
        info.points.find? (fun q => eff_filename q == d.filename) = some p ∧
        attrs_from d p) := by
  have hex : collection_exists st name = true := collection_exists_of_get? st name info hget
  have heq : list_documents_in_collection st name = .ok
      { collection_name := name
        total_documents := ((scroll_all info.points 0).foldl add_point []).length
        total_points := (scroll_all info.points 0).length
        documents := (scroll_all info.points 0).foldl add_point [] } := by
    rw [list_documents_in_collection, if_neg (by simp [hex]), hget]
  rw [scroll_all_zero] at heq
  have hInv := groupInv_foldl info.points [] [] groupInv_nil
  rw [List.nil_append] at hInv
  refine ⟨_, heq, rfl, rfl, hInv.1, hInv.2.1, ?_, hInv.2.2.1, hInv.2.2.2⟩
  have hnd := hInv.1
  have hmem := hInv.2.1
  have hfin : (List.map (fun d => d.filename) (info.points.foldl add_point [])).toFinset =
      (info.points.map eff_filename).toFinset := by
    ext x
    simp only [List.mem_toFinset]
    exact hmem x
  calc (info.points.foldl add_point []).length
      = (List.map (fun d => d.filename) (info.points.foldl add_point [])).length := by
        rw [List.length_map]
    _ = (List.map (fun d => d.filename) (info.points.foldl add_point [])).dedup.length := by
        rw [List.Nodup.dedup hnd]
    _ = (List.map (fun d => d.filename) (info.points.foldl add_point [])).toFinset.card := by
        rw [List.card_toFinset]
    _ = (info.points.map eff_filename).toFinset.card := by rw [hfin]
    _ = (info.points.map eff_filename).dedup.length := by rw [List.card_toFinset]

theorem C4_list_documents_witness :
    get_collection? sampleStore "Curso_101" = some sampleCollection ∧
    (sampleCollection.points.foldl add_point []).map
      (fun d => (d.filename, d.chunks_count)) =
      [(.str "a.pdf", 3), (.str "b.pdf", 2)] ∧
    (∃ R, list_documents_in_collection sampleStore "Curso_101" = .ok R ∧
      R.total_points = sampleCollection.points.length ∧
      R.total_documents = R.documents.length ∧
      (R.documents.map (fun d => d.filename)).Nodup ∧
      (∀ f, f ∈ R.documents.map (fun d => d.filename) ↔
        f ∈ sampleCollection.points.map eff_filename) ∧
      R.total_documents = (sampleCollection.points.map eff_filename).dedup.length ∧
      (∀ d ∈ R.documents, d.chunks_count =
        sampleCollection.points.countP (fun q => eff_filename q == d.filename)) ∧
      (∀ d ∈ R.documents, ∃ p,
        sampleCollection.points.find? (fun q => eff_filename q == d.filename) = some p ∧
        attrs_from d p)) :=
  ⟨by decide, by decide,
   C4_list_documents sampleStore "Curso_101" sampleCollection (by decide)⟩
